import Mathlib

/-!
Verification of the secure-task-manager server core against its design
specification.  The JavaScript source (Express routes, Zod schemas, JWT
middleware) is shallowly embedded below: request bodies become a small JSON
fragment, the PostgreSQL `tasks` table becomes a list of rows, each route
handler becomes a pure function from the request pieces and the database state
to a response (and, for mutating routes, the successor database state).
-/

namespace SecureTaskManager

/-! ## JSON fragment for request bodies

Request bodies arrive through `express.json()` as parsed JSON objects.  The
fragment below covers the scalar JSON values the task schemas inspect; a JSON
object is an association list with distinct keys (JSON.parse keeps a single
binding per key). -/

inductive JsonValue where
  | null
  | bool (b : Bool)
  | num (q : Rat)
  | str (s : String)
deriving DecidableEq, Repr

abbrev JsonObj := List (String × JsonValue)

/-- Property access `body[key]` on a parsed JSON object (undefined ↦ `none`). -/
def lookupField (body : JsonObj) (key : String) : Option JsonValue :=
  (body.find? (fun kv => kv.1 == key)).map (·.2)

/-- Zod's name for the runtime type of a value, used in default error
messages such as "Expected string, received number". -/
def jsonTypeName : JsonValue → String
  | .null => "null"
  | .bool _ => "boolean"
  | .num _ => "number"
  | .str _ => "string"

/-- The JavaScript whitespace set (ECMAScript WhiteSpace ∪ LineTerminator):
TAB, LF, VT, FF, CR, SP, NBSP, OGHAM SP, the U+2000..U+200A spaces, LS, PS,
NNBSP, MMSP, IDEOGRAPHIC SP, and the BOM U+FEFF. -/
def jsWhitespace (c : Char) : Bool :=
  c.val == 0x09 || c.val == 0x0A || c.val == 0x0B || c.val == 0x0C ||
    c.val == 0x0D || c.val == 0x20 || c.val == 0xA0 || c.val == 0x1680 ||
    (0x2000 ≤ c.val && c.val ≤ 0x200A) || c.val == 0x2028 || c.val == 0x2029 ||
    c.val == 0x202F || c.val == 0x205F || c.val == 0x3000 || c.val == 0xFEFF

/-- Model of JavaScript `String.prototype.trim`: drop the JavaScript
whitespace set from both ends of the string. -/
def jsTrim (s : String) : String :=
  ⟨((s.data.dropWhile jsWhitespace).reverse.dropWhile jsWhitespace).reverse⟩

/-- Splitting a character list at every space character, keeping empty
segments, as JavaScript `split(" ")` does. -/
def splitSpaceChars : List Char → List (List Char)
  | [] => [[]]
  | c :: cs =>
    if c = ' ' then [] :: splitSpaceChars cs
    else
      match splitSpaceChars cs with
      | [] => [[c]]
      | hd :: tl => (c :: hd) :: tl

/-- Model of JavaScript `s.split(" ")` (used by the middleware on the
Authorization header): split at every single space, empty segments kept. -/
def splitSpace (s : String) : List String :=
  (splitSpaceChars s.data).map (fun cs => ⟨cs⟩)

/-! ## JavaScript `Number(string)`

`validatePositiveIntParam` coerces the `:id` route parameter with `Number`.
The model implements the ECMAScript `StringToNumber` conversion: the string
is stripped of JavaScript whitespace; the empty string denotes 0; the
grammar accepts a signed decimal literal (integer part, optional fraction,
optional `e`/`E` exponent), a signed `Infinity`, or an unsigned `0x`/`0o`/`0b`
radix literal; anything else is NaN.  The exact rational value of the literal
is then rounded to the nearest IEEE-754 double (round to nearest, ties to
even, overflow to infinity), carried exactly as `mantissa * 2 ^ exp2`. -/

def digitsToNat (l : List Char) : Nat :=
  l.foldl (fun acc c => 10 * acc + (c.toNat - '0'.toNat)) 0

/-- The value of a hexadecimal digit character (codes 48-57 are `0`-`9`,
97-102 are `a`-`f`, 65-70 are `A`-`F`). -/
def hexDigitVal (c : Char) : Option Nat :=
  let n := c.toNat
  if 48 ≤ n && n ≤ 57 then some (n - 48)
  else if 97 ≤ n && n ≤ 102 then some (n - 87)
  else if 65 ≤ n && n ≤ 70 then some (n - 55)
  else none

def isRadixDigit (base : Nat) (c : Char) : Bool :=
  match hexDigitVal c with
  | some v => v < base
  | none => false

def digitsToNatBase (base : Nat) (ds : List Char) : Nat :=
  ds.foldl (fun acc c => base * acc + (hexDigitVal c).getD 0) 0

/-- An IEEE-754 double as produced by `Number(string)`: NaN, a signed
infinity, or a finite value `(-1)^neg * mantissa * 2 ^ exp2` with
`mantissa < 2 ^ 53`. -/
inductive JsDouble where
  | nan
  | inf (neg : Bool)
  | finite (neg : Bool) (mantissa : Nat) (exp2 : Int)
deriving DecidableEq, Repr

def bitLenAux : Nat → Nat → Nat
  | 0, _ => 0
  | fuel + 1, n => if n = 0 then 0 else bitLenAux fuel (n / 2) + 1

/-- Number of binary digits of `n` (0 for 0). -/
def bitLen (n : Nat) : Nat := bitLenAux n n

/-- Whether `2 ^ e ≤ a / b` for positive naturals `a`, `b`. -/
def pow2Le (e : Int) (a b : Nat) : Bool :=
  if 0 ≤ e then 2 ^ e.toNat * b ≤ a else b ≤ a * 2 ^ (-e).toNat

/-- The largest `e` with `2 ^ e ≤ a / b`, for positive `a`, `b`. -/
def floorLog2 (a b : Nat) : Int :=
  let g : Int := (bitLen a : Int) - (bitLen b : Int)
  if pow2Le g a b then g else g - 1

/-- Round the exact positive rational `a / b` to the nearest representable
double: scale into the 53-bit mantissa range (clamped at the subnormal
exponent -1074), round to nearest with ties to even, renormalize a mantissa
overflow, and overflow to infinity at `2 ^ 1024`. -/
def roundPosToDouble (neg : Bool) (a b : Nat) : JsDouble :=
  let e := floorLog2 a b
  let shift : Int := max (e - 52) (-1074)
  let num := if 0 ≤ shift then a else a * 2 ^ (-shift).toNat
  let den := if 0 ≤ shift then b * 2 ^ shift.toNat else b
  let q := num / den
  let r := num % den
  let n :=
    if 2 * r < den then q
    else if den < 2 * r then q + 1
    else if q % 2 = 0 then q else q + 1
  let rounded : Nat × Int := if n = 2 ^ 53 then (2 ^ 52, shift + 1) else (n, shift)
  if 0 ≤ rounded.2 && 2 ^ 1024 ≤ rounded.1 * 2 ^ rounded.2.toNat then .inf neg
  else .finite neg rounded.1 rounded.2

/-- A natural number as a double. -/
def natToDouble (neg : Bool) (n : Nat) : JsDouble :=
  if n = 0 then .finite neg 0 0 else roundPosToDouble neg n 1

/-- `StrUnsignedDecimalLiteral`: `digits [. digits] [exp]` or `. digits
[exp]` with `exp = (e|E) [+|-] digits`; the exact value as a fraction. -/
def parseUnsignedDecimal (cs : List Char) : Option (Nat × Nat) :=
  let ip := cs.takeWhile Char.isDigit
  let rest := cs.dropWhile Char.isDigit
  let fpRest : List Char × List Char :=
    match rest with
    | '.' :: rest1 => (rest1.takeWhile Char.isDigit, rest1.dropWhile Char.isDigit)
    | _ => ([], rest)
  let fp := fpRest.1
  let expPart : Option Int :=
    match fpRest.2 with
    | [] => some 0
    | e :: es =>
      if e = 'e' || e = 'E' then
        let signDigits : Int × List Char :=
          match es with
          | '+' :: ds => (1, ds)
          | '-' :: ds => (-1, ds)
          | ds => (1, ds)
        if signDigits.2 ≠ [] && signDigits.2.all Char.isDigit then
          some (signDigits.1 * digitsToNat signDigits.2)
        else none
      else none
  if ip = [] && fp = [] then none
  else
    match expPart with
    | none => none
    | some k =>
      let mant := digitsToNat (ip ++ fp)
      let k2 : Int := k - fp.length
      if 0 ≤ k2 then some (mant * 10 ^ k2.toNat, 1)
      else some (mant, 10 ^ (-k2).toNat)

/-- An unsigned `0x`/`0o`/`0b` radix literal (no sign permitted). -/
def jsRadix (base : Nat) (ds : List Char) : JsDouble :=
  if ds ≠ [] && ds.all (isRadixDigit base) then
    natToDouble false (digitsToNatBase base ds)
  else .nan

/-- A signed decimal literal or signed `Infinity`. -/
def jsSignedDecimal (t : List Char) : JsDouble :=
  let signRest : Bool × List Char :=
    match t with
    | '+' :: cs => (false, cs)
    | '-' :: cs => (true, cs)
    | cs => (false, cs)
  let neg := signRest.1
  let rest := signRest.2
  if rest = ['I', 'n', 'f', 'i', 'n', 'i', 't', 'y'] then .inf neg
  else
    match parseUnsignedDecimal rest with
    | none => .nan
    | some ab =>
      if ab.1 = 0 then .finite neg 0 0 else roundPosToDouble neg ab.1 ab.2

/-- `Number(s)`: trim, classify the literal, round to a double. -/
def jsNumber (s : String) : JsDouble :=
  let t := (jsTrim s).data
  if t = [] then .finite false 0 0
  else
    match t with
    | '0' :: x :: ds =>
      if x = 'x' || x = 'X' then jsRadix 16 ds
      else if x = 'o' || x = 'O' then jsRadix 8 ds
      else if x = 'b' || x = 'B' then jsRadix 2 ds
      else jsSignedDecimal t
    | _ => jsSignedDecimal t

/-- `Number.isInteger` on a double: finite and without fractional bits. -/
def JsDouble.isInteger : JsDouble → Bool
  | .finite _ m e => if 0 ≤ e then true else m % 2 ^ (-e).toNat == 0
  | _ => false

/-- `parsed <= 0` on a double (false for NaN). -/
def JsDouble.leZero : JsDouble → Bool
  | .nan => false
  | .inf neg => neg
  | .finite neg m _ => neg || m == 0

/-- The exact integer an integral double denotes. -/
def JsDouble.toInt : JsDouble → Int
  | .finite neg m e =>
    let mag : Nat := if 0 ≤ e then m * 2 ^ e.toNat else m / 2 ^ (-e).toNat
    if neg then -(mag : Int) else (mag : Int)
  | _ => 0

/-! ## Responses

Every route answers with a status code and a JSON body.  The body shapes below
are exactly the ones produced by the embedded handlers (`res.status(No).json(...)`
calls in the source). -/

structure FieldError where
  field : String
  message : String
deriving DecidableEq, Repr

structure TaskOut where
  id : Int
  title : String
  description : Option String
  completed : Bool
  created_at : Int
deriving DecidableEq, Repr

inductive Body where
  | errorMsg (error : String)
  | validationError (error : String) (details : List FieldError)
  | tasks (ts : List TaskOut)
  | task (t : TaskOut)
  | deleted (message : String) (taskId : Int)
deriving DecidableEq, Repr

structure Response where
  status : Nat
  body : Body
deriving DecidableEq, Repr

/-! ## Zod validation layer (`schemas/taskSchemas.js`)

A Zod issue carries a path and a message; `formatZodError` in
`routes/tasks.js` flattens it for the API.  Zod's object parser distinguishes
three field outcomes: `valid`, `dirty` (an issue was recorded but a value was
still produced, e.g. a too-short string after `.trim()`), and `aborted`
(invalid type — no value).  A `.refine` on the object runs whenever the object
parse was not aborted, on the pruned output object; this distinction is what
decides which payloads carry the `_form` issue. -/

structure ZodIssue where
  path : List String
  message : String
deriving DecidableEq, Repr

inductive FieldParse (α : Type) where
  | valid (a : α)
  | dirty (a : α) (issue : ZodIssue)
  | aborted (issue : ZodIssue)
deriving DecidableEq, Repr

def FieldParse.issues {α : Type} : FieldParse α → List ZodIssue
  | .valid _ => []
  | .dirty _ i => [i]
  | .aborted i => [i]

def FieldParse.isAborted {α : Type} : FieldParse α → Bool
  | .aborted _ => true
  | _ => false

/-- The value the object parser stores for the field (`none` when aborted —
unused in that case, since the whole parse is aborted). -/
def FieldParse.value {α : Type} (default : α) : FieldParse α → α
  | .valid a => a
  | .dirty a _ => a
  | .aborted _ => default

/-- `updateTaskSchema.title`: optional string, custom invalid-type message,
trimmed, non-empty after trim. -/
def updateTitleField (body : JsonObj) : FieldParse (Option String) :=
  match lookupField body "title" with
  | none => .valid none
  | some (.str s) =>
    let t := jsTrim s
    if 1 ≤ t.length then .valid (some t)
    else .dirty (some t) ⟨["title"], "Title cannot be empty."⟩
  | some _ => .aborted ⟨["title"], "Title must be a string."⟩

/-- `updateTaskSchema.description`: optional string, custom invalid-type
message, trimmed, non-empty after trim. -/
def updateDescriptionField (body : JsonObj) : FieldParse (Option String) :=
  match lookupField body "description" with
  | none => .valid none
  | some (.str s) =>
    let t := jsTrim s
    if 1 ≤ t.length then .valid (some t)
    else .dirty (some t) ⟨["description"], "Description cannot be empty"⟩
  | some _ => .aborted ⟨["description"], "Description must be a string."⟩

/-- `updateTaskSchema.completed`: optional strict boolean with a custom
invalid-type message. -/
def updateCompletedField (body : JsonObj) : FieldParse (Option Bool) :=
  match lookupField body "completed" with
  | none => .valid none
  | some (.bool b) => .valid (some b)
  | some _ => .aborted ⟨["completed"], "Completed must be true or false."⟩

def updateKnownKeys : List String := ["title", "description", "completed"]

/-- The keys of the payload that are not part of the schema's shape
(`.strict()` rejects them). -/
def extraKeysOf (body : JsonObj) (known : List String) : List String :=
  (body.map (·.1)).filter (fun k => !known.contains k)

/-- Zod's `unrecognized_keys` issue for a strict object, attached to the
object itself (empty path). -/
def unrecognizedKeysIssue (keys : List String) : ZodIssue :=
  ⟨[], "Unrecognized key(s) in object: " ++
    String.intercalate ", " (keys.map (fun k => "'" ++ k ++ "'"))⟩

structure UpdateData where
  title : Option String
  description : Option String
  completed : Option Bool
deriving DecidableEq, Repr

/-- `Object.keys(data).length` in the schema's `.refine`: the pruned output
object holds exactly the known fields present in the payload. -/
def providedFieldCount (d : UpdateData) : Nat :=
  (if d.title.isSome then 1 else 0) +
    (if d.description.isSome then 1 else 0) +
    (if d.completed.isSome then 1 else 0)

/-- `updateTaskSchema.safeParse`: strict object of three optional fields,
refined so that at least one field is provided (issue path `["_form"]`).
Field issues are recorded in shape order, then the unrecognized-keys issue,
then (when the object parse was not aborted) the refinement issue. -/
def parseUpdate (body : JsonObj) : Except (List ZodIssue) UpdateData :=
  let titleP := updateTitleField body
  let descP := updateDescriptionField body
  let compP := updateCompletedField body
  let fieldIssues := titleP.issues ++ descP.issues ++ compP.issues
  let extraKeys := extraKeysOf body updateKnownKeys
  let unrecIssues := if extraKeys = [] then [] else [unrecognizedKeysIssue extraKeys]
  if titleP.isAborted || descP.isAborted || compP.isAborted then
    .error (fieldIssues ++ unrecIssues)
  else
    let data : UpdateData :=
      { title := titleP.value none
        description := descP.value none
        completed := compP.value none }
    let refineIssues :=
      if 0 < providedFieldCount data then []
      else [⟨["_form"], "At least one field is required to update a task."⟩]
    let allIssues := fieldIssues ++ unrecIssues ++ refineIssues
    if allIssues = [] then .ok data else .error allIssues

structure CreateData where
  title : String
  description : Option String
deriving DecidableEq, Repr

/-- `createTaskSchema.title`: required string (custom required message),
trimmed, non-empty after trim. -/
def createTitleField (body : JsonObj) : FieldParse String :=
  match lookupField body "title" with
  | none => .aborted ⟨["title"], "Title is required."⟩
  | some (.str s) =>
    let t := jsTrim s
    if 1 ≤ t.length then .valid t
    else .dirty t ⟨["title"], "Title cannot be empty."⟩
  | some v => .aborted ⟨["title"], "Expected string, received " ++ jsonTypeName v⟩

/-- `createTaskSchema.description`: optional string, trimmed, may be empty. -/
def createDescriptionField (body : JsonObj) : FieldParse (Option String) :=
  match lookupField body "description" with
  | none => .valid none
  | some (.str s) => .valid (some (jsTrim s))
  | some v => .aborted ⟨["description"], "Expected string, received " ++ jsonTypeName v⟩

def createKnownKeys : List String := ["title", "description"]

/-- `createTaskSchema.safeParse`: strict object, `title` required and
non-empty after trimming, `description` optional. -/
def parseCreate (body : JsonObj) : Except (List ZodIssue) CreateData :=
  let titleP := createTitleField body
  let descP := createDescriptionField body
  let fieldIssues := titleP.issues ++ descP.issues
  let extraKeys := extraKeysOf body createKnownKeys
  let unrecIssues := if extraKeys = [] then [] else [unrecognizedKeysIssue extraKeys]
  let allIssues := fieldIssues ++ unrecIssues
  if allIssues = [] then
    .ok { title := titleP.value "", description := descP.value none }
  else .error allIssues

/-- `formatZodError` from `routes/tasks.js`: flatten each issue to a
`{field, message}` pair, joining the path with dots and falling back to
"unknown" for an empty path. -/
def formatZodError (issues : List ZodIssue) : List FieldError :=
  issues.map fun i =>
    ⟨if 0 < i.path.length then String.intercalate "." i.path else "unknown", i.message⟩

/-! ## Task ownership store (`routes/tasks.js` + the `tasks` table)

A database state is the list of task rows together with the sequence value
backing the `id` column and the clock backing `created_at`.  Modelled from the
spec where the DDL is not in the sources: the `tasks` table's `completed`
column defaults to `false`, `created_at` defaults to the insertion time,
`id` is serial, and `user_id` is a non-null reference to the owner. -/

structure TaskRow where
  id : Int
  user_id : Int
  title : String
  description : Option String
  completed : Bool
  created_at : Int
deriving DecidableEq, Repr

def toTaskOut (r : TaskRow) : TaskOut :=
  ⟨r.id, r.title, r.description, r.completed, r.created_at⟩

structure Db where
  rows : List TaskRow
  nextId : Int
  now : Int
deriving DecidableEq, Repr

/-- The ownership predicate `user_id = $uid` of every task query.  The
identity is an `Option` because the middleware copies `payload.userId`
verbatim, and SQL `user_id = NULL` holds of no row. -/
def rowMatchesUser (uid : Option Int) (r : TaskRow) : Bool :=
  uid == some r.user_id

/-- The conjoined predicate `user_id = $uid AND id = $taskId` of the update
and delete statements. -/
def rowMatchesUserAndId (uid : Option Int) (taskId : Int) (r : TaskRow) : Bool :=
  rowMatchesUser uid r && r.id == taskId

/-- `ORDER BY created_at DESC`: later creation times first. -/
def createdDesc (a b : TaskRow) : Prop :=
  b.created_at ≤ a.created_at

instance : DecidableRel createdDesc := fun a b =>
  inferInstanceAs (Decidable (b.created_at ≤ a.created_at))

instance : IsTotal TaskRow createdDesc :=
  ⟨fun a b => Int.le_total b.created_at a.created_at⟩

instance : IsTrans TaskRow createdDesc :=
  ⟨fun _ _ _ hab hbc => le_trans hbc hab⟩

/-- `SELECT ... FROM tasks WHERE user_id = $1 ORDER BY created_at DESC`. -/
def listTasksQuery (uid : Option Int) (db : Db) : List TaskRow :=
  List.insertionSort createdDesc (db.rows.filter (rowMatchesUser uid))

/-- `GET /api/tasks`: list the authenticated user's tasks. -/
def getTasksHandler (uid : Option Int) (db : Db) : Response :=
  ⟨200, .tasks ((listTasksQuery uid db).map toTaskOut)⟩

/-- `POST /api/tasks`: validate the payload, then insert a row for this user
(`description` absent becomes an explicit NULL).  Inserting with no identity
violates the non-null owner column and surfaces as the catch-all 500. -/
def postTasksHandler (uid : Option Int) (body : JsonObj) (db : Db) :
    Response × Db :=
  match parseCreate body with
  | .error issues =>
    (⟨400, .validationError "Invalid input" (formatZodError issues)⟩, db)
  | .ok data =>
    match uid with
    | none => (⟨500, .errorMsg "Failed to create task."⟩, db)
    | some u =>
      let row : TaskRow :=
        { id := db.nextId
          user_id := u
          title := data.title
          description := data.description
          completed := false
          created_at := db.now }
      (⟨201, .task (toTaskOut row)⟩,
        { db with rows := db.rows ++ [row], nextId := db.nextId + 1 })

/-- Result of `validatePositiveIntParam` from `routes/tasks.js`: either the
parsed id or the 400 response the caller returns unchanged. -/
inductive IdCheck where
  | ok (value : Int)
  | invalid (response : Response)
deriving DecidableEq, Repr

/-- `validatePositiveIntParam(res, name, rawValue)`: coerce with `Number`,
then require an integer strictly greater than zero. -/
def validatePositiveIntParam (name : String) (rawValue : String) : IdCheck :=
  let parsed := jsNumber rawValue
  if !parsed.isInteger || parsed.leZero then
    .invalid ⟨400, .validationError "Invalid input"
      [⟨name, name ++ " must be a positive integer."⟩]⟩
  else .ok parsed.toInt

/-- The dynamically built list of `SET` column assignments of the update
statement: one assignment per provided field, in the order the handler pushes
them (title, description, completed). -/
def updateAssignments (d : UpdateData) : List (String × JsonValue) :=
  (match d.title with | some t => [("title", JsonValue.str t)] | none => []) ++
    (match d.description with | some s => [("description", JsonValue.str s)] | none => []) ++
    (match d.completed with | some b => [("completed", JsonValue.bool b)] | none => [])

/-- Apply one `SET column = value` assignment to a row. -/
def applyAssignment (r : TaskRow) (a : String × JsonValue) : TaskRow :=
  match a with
  | ("title", .str t) => { r with title := t }
  | ("description", .str s) => { r with description := some s }
  | ("completed", .bool b) => { r with completed := b }
  | _ => r

def applyAssignments (assigns : List (String × JsonValue)) (r : TaskRow) : TaskRow :=
  assigns.foldl applyAssignment r

/-- Outcome of a mutating task route: the response, the successor database
state, and whether the handler reached a storage statement. -/
structure HandlerResult where
  resp : Response
  db : Db
  storageAccessed : Bool
deriving DecidableEq, Repr

/-- `PUT /api/tasks/:id`: id check, then schema check, then
`UPDATE tasks SET ... WHERE user_id = $m AND id = $n RETURNING ...`;
zero returned rows is reported as 404. -/
def putTasksHandler (uid : Option Int) (rawId : String) (body : JsonObj)
    (db : Db) : HandlerResult :=
  match validatePositiveIntParam "id" rawId with
  | .invalid resp => ⟨resp, db, false⟩
  | .ok taskId =>
    match parseUpdate body with
    | .error issues =>
      ⟨⟨400, .validationError "Invalid input" (formatZodError issues)⟩, db, false⟩
    | .ok data =>
      let assigns := updateAssignments data
      let updatedRows := db.rows.map fun r =>
        if rowMatchesUserAndId uid taskId r then applyAssignments assigns r else r
      let returning :=
        (db.rows.filter (rowMatchesUserAndId uid taskId)).map (applyAssignments assigns)
      let db' := { db with rows := updatedRows }
      match returning with
      | [] => ⟨⟨404, .errorMsg "Task not found."⟩, db', true⟩
      | t :: _ => ⟨⟨200, .task (toTaskOut t)⟩, db', true⟩

/-- `DELETE /api/tasks/:id`: id check, then
`DELETE FROM tasks WHERE user_id = $1 AND id = $2 RETURNING id`;
zero returned rows is reported as 404. -/
def deleteTasksHandler (uid : Option Int) (rawId : String) (db : Db) :
    HandlerResult :=
  match validatePositiveIntParam "id" rawId with
  | .invalid resp => ⟨resp, db, false⟩
  | .ok taskId =>
    let returning := (db.rows.filter (rowMatchesUserAndId uid taskId)).map (·.id)
    let db' := { db with rows := db.rows.filter (fun r => !rowMatchesUserAndId uid taskId r) }
    match returning with
    | [] => ⟨⟨404, .errorMsg "Task not found."⟩, db', true⟩
    | i :: _ => ⟨⟨200, .deleted "Task deleted." i⟩, db', true⟩

/-! ## Access Guard (`middleware/authMiddleware.js`)

`jwt.verify` is the external library boundary: the middleware is parameterized
by the verification function, which either throws (`error`) or returns the
decoded payload.  A decoded payload is a JavaScript object whose `userId`
property may be absent (`none`). -/

structure JwtPayload where
  userId : Option Int
deriving DecidableEq, Repr

inductive VerifyResult where
  | ok (payload : JwtPayload)
  | error
deriving DecidableEq, Repr

structure Identity where
  userId : Option Int
deriving DecidableEq, Repr

inductive GuardResult where
  | rejected (status : Nat) (body : Body)
  | proceed (user : Identity)
deriving DecidableEq, Repr

/-- The middleware: reject a missing (or falsy, i.e. empty) header, reject a
header that does not split into exactly `Bearer` and a token, reject a token
`jwt.verify` throws on, and otherwise attach `{ userId: payload.userId }` and
continue. -/
def authMiddleware (verify : String → VerifyResult) (authHeader : Option String) :
    GuardResult :=
  match authHeader with
  | none => .rejected 401 (.errorMsg "Missing Authorization header.")
  | some h =>
    if h = "" then .rejected 401 (.errorMsg "Missing Authorization header.")
    else
      match splitSpace h with
      | [p0, token] =>
        if p0 = "Bearer" then
          match verify token with
          | .ok payload => .proceed ⟨payload.userId⟩
          | .error => .rejected 401 (.errorMsg "Invalid or expired token.")
        else
          .rejected 401 (.errorMsg "Authorization header must be in 'Bearer <token>' format.")
      | _ =>
        .rejected 401 (.errorMsg "Authorization header must be in 'Bearer <token>' format.")

/-- `router.use(authMiddleware)` on the tasks router: the downstream handler
runs only when the guard proceeds, and then receives the attached identity. -/
def tasksPipeline (verify : String → VerifyResult) (authHeader : Option String)
    (handle : Identity → Response) : Response :=
  match authMiddleware verify authHeader with
  | .rejected s b => ⟨s, b⟩
  | .proceed u => handle u

/-! ## Shared lemmas -/

theorem filter_map_of_fix {α : Type} (p : α → Bool) (f : α → α)
    (hp : ∀ a, p (f a) = p a) (hfix : ∀ a, p a = true → f a = a) :
    ∀ l : List α, (l.map f).filter p = l.filter p := by
  intro l
  induction l with
  | nil => rfl
  | cons a l ih =>
    simp only [List.map_cons, List.filter_cons, hp a]
    cases hpa : p a with
    | false => simpa using ih
    | true => simpa [hfix a hpa] using ih

theorem filter_filter_not_of_excl {α : Type} (p q : α → Bool)
    (h : ∀ a, p a = true → q a = false) :
    ∀ l : List α, (l.filter (fun a => !q a)).filter p = l.filter p := by
  intro l
  induction l with
  | nil => rfl
  | cons a l ih =>
    by_cases hpa : p a = true
    · simp [List.filter_cons, h a hpa, hpa, ih]
    · replace hpa : p a = false := by simpa using hpa
      cases hqa : q a <;> simp [List.filter_cons, hqa, hpa, ih]

theorem applyAssignment_user_id (r : TaskRow) (a : String × JsonValue) :
    (applyAssignment r a).user_id = r.user_id := by
  unfold applyAssignment
  split <;> rfl

theorem applyAssignments_user_id (assigns : List (String × JsonValue)) :
    ∀ r : TaskRow, (applyAssignments assigns r).user_id = r.user_id := by
  induction assigns with
  | nil => intro r; rfl
  | cons a assigns ih =>
    intro r
    simpa [applyAssignments, List.foldl_cons, applyAssignment_user_id]
      using (applyAssignment_user_id r a ▸ ih (applyAssignment r a))

/-- The rows after a `PUT` are either untouched (the request was rejected
before storage) or are the source rows with the update mapped over the rows
matching the ownership-conjoined predicate. -/
theorem putTasksHandler_db_rows (uid : Option Int) (rawId : String)
    (body : JsonObj) (db : Db) :
    (putTasksHandler uid rawId body db).db.rows = db.rows ∨
    ∃ taskId data,
      validatePositiveIntParam "id" rawId = .ok taskId ∧
      parseUpdate body = .ok data ∧
      (putTasksHandler uid rawId body db).db.rows =
        db.rows.map fun r =>
          if rowMatchesUserAndId uid taskId r then
            applyAssignments (updateAssignments data) r
          else r := by
  cases hval : validatePositiveIntParam "id" rawId with
  | invalid resp => left; simp [putTasksHandler, hval]
  | ok taskId =>
    cases hparse : parseUpdate body with
    | error issues => left; simp [putTasksHandler, hval, hparse]
    | ok data =>
      right
      refine ⟨taskId, data, rfl, rfl, ?_⟩
      simp only [putTasksHandler, hval, hparse]
      cases hret : (db.rows.filter (rowMatchesUserAndId uid taskId)).map
          (applyAssignments (updateAssignments data)) <;>
        simp [hret]

/-- The rows after a `DELETE` are either untouched (invalid id) or are the
source rows with the ownership-conjoined matches removed. -/
theorem deleteTasksHandler_db_rows (uid : Option Int) (rawId : String)
    (db : Db) :
    (deleteTasksHandler uid rawId db).db.rows = db.rows ∨
    ∃ taskId,
      validatePositiveIntParam "id" rawId = .ok taskId ∧
      (deleteTasksHandler uid rawId db).db.rows =
        db.rows.filter fun r => !rowMatchesUserAndId uid taskId r := by
  cases hval : validatePositiveIntParam "id" rawId with
  | invalid resp => left; simp [deleteTasksHandler, hval]
  | ok taskId =>
    right
    refine ⟨taskId, rfl, ?_⟩
    simp only [deleteTasksHandler, hval]
    cases hret : (db.rows.filter (rowMatchesUserAndId uid taskId)).map (·.id) <;>
      simp [hret]

theorem mem_listTasksQuery_user_id (uid : Int) (db : Db) (r : TaskRow)
    (hr : r ∈ listTasksQuery (some uid) db) : r.user_id = uid := by
  have hr' : r ∈ db.rows.filter (rowMatchesUser (some uid)) :=
    (List.mem_insertionSort createdDesc).mp hr
  have hmatch := (List.mem_filter.mp hr').2
  simp only [rowMatchesUser, beq_iff_eq, Option.some.injEq] at hmatch
  exact hmatch.symm

/-! ## Claims -/

/-- Claim C1: ownership isolation.  For registered users `A ≠ B`: no task
returned by `list(B)` is owned by `A`; the rows owned by `A` (with all their
fields) are unchanged by any `PUT /api/tasks/:id` issued under `B`'s
identity; and they are unchanged by any `DELETE /api/tasks/:id` issued under
`B`'s identity — because every storage query conjoins `user_id = uid`. -/
theorem ownership_isolation (A B : Int) (hAB : A ≠ B) (db : Db)
    (rawId : String) (body : JsonObj) :
    (∀ r ∈ listTasksQuery (some B) db, r.user_id ≠ A) ∧
    (putTasksHandler (some B) rawId body db).db.rows.filter
        (fun r => r.user_id == A) =
      db.rows.filter (fun r => r.user_id == A) ∧
    (deleteTasksHandler (some B) rawId db).db.rows.filter
        (fun r => r.user_id == A) =
      db.rows.filter (fun r => r.user_id == A) := by
  refine ⟨?_, ?_, ?_⟩
  · intro r hr
    have := mem_listTasksQuery_user_id B db r hr
    omega
  · rcases putTasksHandler_db_rows (some B) rawId body db with h | ⟨taskId, data, _, _, h⟩
    · rw [h]
    · rw [h]
      apply filter_map_of_fix
      · intro a
        by_cases hm : rowMatchesUserAndId (some B) taskId a = true
        · simp [hm, applyAssignments_user_id]
        · simp only [Bool.not_eq_true] at hm
          simp [hm]
      · intro a ha
        have haA : a.user_id = A := by simpa using ha
        have hm : rowMatchesUserAndId (some B) taskId a = false := by
          simp [rowMatchesUserAndId, rowMatchesUser, haA]
          intro hBA
          omega
        simp [hm]
  · rcases deleteTasksHandler_db_rows (some B) rawId db with h | ⟨taskId, _, h⟩
    · rw [h]
    · rw [h]
      apply filter_filter_not_of_excl
      intro a ha
      have haA : a.user_id = A := by simpa using ha
      simp [rowMatchesUserAndId, rowMatchesUser, haA]
      intro hBA
      omega

/-- A concrete two-user store used to instantiate the isolation theorem. -/
def dbTwoUsers : Db :=
  ⟨[⟨1, 1, "alice task", none, false, 5⟩, ⟨2, 2, "bob task", some "b", false, 6⟩], 3, 7⟩

/-- Witness for C1 at a concrete store: a `PUT` issued under user 2 leaves
user 1's rows untouched. -/
theorem ownership_isolation_witness :
    (putTasksHandler (some 2) "1" [("completed", JsonValue.bool true)]
        dbTwoUsers).db.rows.filter (fun r => r.user_id == 1) =
      dbTwoUsers.rows.filter (fun r => r.user_id == 1) :=
  (ownership_isolation 1 2 (by decide) dbTwoUsers "1"
    [("completed", JsonValue.bool true)]).2.1

/-- Claim C2: the Access Guard's per-request state machine.  A missing (or
empty) header, a header that is not exactly `Bearer <token>`, and a token the
verifier rejects all produce a 401 rejection whose response does not depend
on the downstream handler (so no identity is attached and the handler never
runs); a token the verifier accepts attaches `{ userId: payload.userId }` and
hands the request to the handler. -/
theorem accessGuard_state_machine (verify : String → VerifyResult)
    (handle : Identity → Response) :
    (authMiddleware verify none =
        .rejected 401 (.errorMsg "Missing Authorization header.") ∧
      tasksPipeline verify none handle =
        ⟨401, .errorMsg "Missing Authorization header."⟩) ∧
    (authMiddleware verify (some "") =
        .rejected 401 (.errorMsg "Missing Authorization header.") ∧
      tasksPipeline verify (some "") handle =
        ⟨401, .errorMsg "Missing Authorization header."⟩) ∧
    (∀ h : String, h ≠ "" →
      ((splitSpace h).length ≠ 2 ∨ (splitSpace h).head? ≠ some "Bearer") →
      authMiddleware verify (some h) =
        .rejected 401
          (.errorMsg "Authorization header must be in 'Bearer <token>' format.") ∧
      tasksPipeline verify (some h) handle =
        ⟨401, .errorMsg "Authorization header must be in 'Bearer <token>' format."⟩) ∧
    (∀ h tok : String, h ≠ "" → splitSpace h = ["Bearer", tok] →
      verify tok = .error →
      authMiddleware verify (some h) =
        .rejected 401 (.errorMsg "Invalid or expired token.") ∧
      tasksPipeline verify (some h) handle =
        ⟨401, .errorMsg "Invalid or expired token."⟩) ∧
    (∀ (h tok : String) (payload : JwtPayload), h ≠ "" →
      splitSpace h = ["Bearer", tok] → verify tok = .ok payload →
      authMiddleware verify (some h) = .proceed ⟨payload.userId⟩ ∧
      tasksPipeline verify (some h) handle = handle ⟨payload.userId⟩) := by
  refine ⟨⟨rfl, rfl⟩, ⟨rfl, rfl⟩, ?_, ?_, ?_⟩
  · intro h hne hshape
    match hs : splitSpace h with
    | [] => constructor <;> simp [authMiddleware, tasksPipeline, hne, hs]
    | [p0] => constructor <;> simp [authMiddleware, tasksPipeline, hne, hs]
    | [p0, tok] =>
      have hp0 : p0 ≠ "Bearer" := by
        rcases hshape with hlen | hhead
        · exact absurd (by rw [hs]; rfl) hlen
        · intro he; exact hhead (by rw [hs, he]; rfl)
      constructor <;> simp [authMiddleware, tasksPipeline, hne, hs, hp0]
    | p0 :: t1 :: t2 :: rest =>
      constructor <;> simp [authMiddleware, tasksPipeline, hne, hs]
  · intro h tok hne hs hv
    constructor <;> simp [authMiddleware, tasksPipeline, hne, hs, hv]
  · intro h tok payload hne hs hv
    constructor <;> simp [authMiddleware, tasksPipeline, hne, hs, hv]

/-- Witness for C2 at concrete requests: a wrongly shaped header and a
rejected token both yield 401, and an accepted token reaches the handler. -/
theorem accessGuard_state_machine_witness :
    tasksPipeline (fun t => if t = "good" then .ok ⟨some 7⟩ else .error)
        (some "Token abc") (fun u => getTasksHandler u.userId ⟨[], 1, 0⟩) =
      ⟨401, .errorMsg "Authorization header must be in 'Bearer <token>' format."⟩ ∧
    tasksPipeline (fun t => if t = "good" then .ok ⟨some 7⟩ else .error)
        (some "Bearer bad") (fun u => getTasksHandler u.userId ⟨[], 1, 0⟩) =
      ⟨401, .errorMsg "Invalid or expired token."⟩ ∧
    tasksPipeline (fun t => if t = "good" then .ok ⟨some 7⟩ else .error)
        (some "Bearer good") (fun u => getTasksHandler u.userId ⟨[], 1, 0⟩) =
      (fun u : Identity => getTasksHandler u.userId ⟨[], 1, 0⟩) ⟨some 7⟩ := by
  have hmach := accessGuard_state_machine
    (fun t => if t = "good" then .ok ⟨some 7⟩ else .error)
    (fun u => getTasksHandler u.userId ⟨[], 1, 0⟩)
  refine ⟨(hmach.2.2.1 "Token abc" (by decide) (by right; decide)).2, ?_, ?_⟩
  · exact (hmach.2.2.2.1 "Bearer bad" "bad" (by decide) (by decide) (by decide)).2
  · exact (hmach.2.2.2.2 "Bearer good" "good" ⟨some 7⟩ (by decide) (by decide)
      (by decide)).2

/-- Counterexample to C3 as stated: two rejected requests — one with the
header missing, one with a wrongly shaped header — receive different
response bodies from the Access Guard, so the rejection is not
undifferentiated to the client. -/
theorem guard_rejection_counterexample :
    authMiddleware (fun _ => VerifyResult.error) none =
      .rejected 401 (.errorMsg "Missing Authorization header.") ∧
    authMiddleware (fun _ => VerifyResult.error) (some "Token abc") =
      .rejected 401
        (.errorMsg "Authorization header must be in 'Bearer <token>' format.") ∧
    Body.errorMsg "Missing Authorization header." ≠
      Body.errorMsg "Authorization header must be in 'Bearer <token>' format." :=
  ⟨rfl, rfl, by decide⟩

/-- Claim C3, amended: every Access Guard rejection carries status 401, and
any two rejections caused by failed token verification (expired token or bad
signature — both surface as the verifier throwing) are client-visibly
identical; but the three rejection categories (missing header, wrong header
shape, failed verification) carry distinct response bodies, so the client can
tell them apart. -/
theorem guard_rejection_amended (verify : String → VerifyResult) :
    (∀ (authHeader : Option String) (s : Nat) (b : Body),
      authMiddleware verify authHeader = .rejected s b → s = 401) ∧
    (∀ h₁ h₂ t₁ t₂ : String, h₁ ≠ "" → h₂ ≠ "" →
      splitSpace h₁ = ["Bearer", t₁] → splitSpace h₂ = ["Bearer", t₂] →
      verify t₁ = .error → verify t₂ = .error →
      authMiddleware verify (some h₁) = authMiddleware verify (some h₂)) := by
  constructor
  · intro authHeader s b hmid
    unfold authMiddleware at hmid
    repeat' split at hmid
    all_goals
      first
        | (injection hmid with h1 h2; exact h1.symm)
        | exact GuardResult.noConfusion hmid
  · intro h₁ h₂ t₁ t₂ hne₁ hne₂ hs₁ hs₂ hv₁ hv₂
    simp [authMiddleware, hne₁, hne₂, hs₁, hs₂, hv₁, hv₂]

/-- Witness for the amended C3: a bad-signature token and an expired token
(two tokens the verifier rejects) receive identical rejections. -/
theorem guard_rejection_amended_witness :
    authMiddleware (fun _ => VerifyResult.error) (some "Bearer expired-token") =
      authMiddleware (fun _ => VerifyResult.error) (some "Bearer bad-signature") :=
  (guard_rejection_amended (fun _ => VerifyResult.error)).2
    "Bearer expired-token" "Bearer bad-signature" "expired-token" "bad-signature"
    (by decide) (by decide) (by decide) (by decide) rfl rfl

/-- Claim C10: the Access Guard accepts any token the verifier accepts,
regardless of the payload's contents.  A validly signed, unexpired token
whose payload lacks a `userId` claim passes the guard with an undefined
identity, and the downstream list query then runs with that undefined
`uid` — `user_id = NULL` matches no row, so the response is an empty 200. -/
theorem guard_accepts_payload_without_userId (verify : String → VerifyResult)
    (h tok : String) (db : Db) (hne : h ≠ "")
    (hs : splitSpace h = ["Bearer", tok])
    (hv : verify tok = .ok ⟨none⟩) :
    authMiddleware verify (some h) = .proceed ⟨none⟩ ∧
    tasksPipeline verify (some h) (fun u => getTasksHandler u.userId db) =
      getTasksHandler none db ∧
    getTasksHandler none db = ⟨200, .tasks []⟩ := by
  have hmid : authMiddleware verify (some h) = .proceed ⟨none⟩ := by
    simp [authMiddleware, hne, hs, hv]
  refine ⟨hmid, by simp [tasksPipeline, hmid], ?_⟩
  have hfilter : db.rows.filter (rowMatchesUser none) = [] :=
    List.filter_eq_nil_iff.mpr (fun r _ => by simp [rowMatchesUser])
  simp [getTasksHandler, listTasksQuery, hfilter]

/-- Witness for C10: a store that does contain rows is still invisible to
the undefined identity attached from a `userId`-free payload. -/
theorem guard_accepts_payload_without_userId_witness :
    authMiddleware (fun _ => .ok ⟨none⟩) (some "Bearer anytoken") =
      .proceed ⟨none⟩ ∧
    tasksPipeline (fun _ => .ok ⟨none⟩) (some "Bearer anytoken")
        (fun u => getTasksHandler u.userId dbTwoUsers) =
      getTasksHandler none dbTwoUsers ∧
    getTasksHandler none dbTwoUsers = ⟨200, .tasks []⟩ :=
  guard_accepts_payload_without_userId (fun _ => .ok ⟨none⟩)
    "Bearer anytoken" "anytoken" dbTwoUsers (by decide) (by decide) rfl

/-- A rejected id check always carries a 400 response. -/
theorem validatePositiveIntParam_invalid_status (name raw : String)
    (resp : Response)
    (h : validatePositiveIntParam name raw = .invalid resp) :
    resp.status = 400 := by
  simp only [validatePositiveIntParam] at h
  split at h
  · injection h with he
    rw [← he]
  · exact IdCheck.noConfusion h

/-- A failed body validation short-circuits the `PUT` handler into the 400
response, before any storage access. -/
theorem putTasksHandler_parse_error (uid : Option Int) (rawId : String)
    (taskId : Int) (body : JsonObj) (db : Db) (issues : List ZodIssue)
    (hval : validatePositiveIntParam "id" rawId = .ok taskId)
    (hparse : parseUpdate body = .error issues) :
    putTasksHandler uid rawId body db =
      ⟨⟨400, .validationError "Invalid input" (formatZodError issues)⟩, db, false⟩ := by
  simp [putTasksHandler, hval, hparse]

/-- Claim C4: anti-enumeration.  For an authenticated user and a well-formed
positive-integer task id, update and delete answer with one and the same
404 response whether no task with that id exists at all (`db₁`) or a task
with that id exists but is owned by a different user (`db₂`). -/
theorem anti_enumeration (uid taskId : Int) (rawId : String) (body : JsonObj)
    (data : UpdateData) (db₁ db₂ : Db)
    (hval : validatePositiveIntParam "id" rawId = .ok taskId)
    (hparse : parseUpdate body = .ok data)
    (habsent : ∀ r ∈ db₁.rows, r.id ≠ taskId)
    (_hexists : ∃ r ∈ db₂.rows, r.id = taskId)
    (hother : ∀ r ∈ db₂.rows, r.id = taskId → r.user_id ≠ uid) :
    (putTasksHandler (some uid) rawId body db₁).resp =
      (putTasksHandler (some uid) rawId body db₂).resp ∧
    (putTasksHandler (some uid) rawId body db₁).resp =
      ⟨404, .errorMsg "Task not found."⟩ ∧
    (deleteTasksHandler (some uid) rawId db₁).resp =
      (deleteTasksHandler (some uid) rawId db₂).resp ∧
    (deleteTasksHandler (some uid) rawId db₁).resp =
      ⟨404, .errorMsg "Task not found."⟩ := by
  have h₁ : db₁.rows.filter (rowMatchesUserAndId (some uid) taskId) = [] := by
    refine List.filter_eq_nil_iff.mpr (fun r hr => ?_)
    simp only [rowMatchesUserAndId, rowMatchesUser, Bool.and_eq_true, beq_iff_eq,
      Option.some.injEq, not_and]
    intro _ hid
    exact habsent r hr hid
  have h₂ : db₂.rows.filter (rowMatchesUserAndId (some uid) taskId) = [] := by
    refine List.filter_eq_nil_iff.mpr (fun r hr => ?_)
    simp only [rowMatchesUserAndId, rowMatchesUser, Bool.and_eq_true, beq_iff_eq,
      Option.some.injEq, not_and]
    intro huid hid
    exact absurd huid.symm (hother r hr hid)
  have hput₁ : (putTasksHandler (some uid) rawId body db₁).resp =
      ⟨404, .errorMsg "Task not found."⟩ := by
    simp [putTasksHandler, hval, hparse, h₁]
  have hput₂ : (putTasksHandler (some uid) rawId body db₂).resp =
      ⟨404, .errorMsg "Task not found."⟩ := by
    simp [putTasksHandler, hval, hparse, h₂]
  have hdel₁ : (deleteTasksHandler (some uid) rawId db₁).resp =
      ⟨404, .errorMsg "Task not found."⟩ := by
    simp [deleteTasksHandler, hval, h₁]
  have hdel₂ : (deleteTasksHandler (some uid) rawId db₂).resp =
      ⟨404, .errorMsg "Task not found."⟩ := by
    simp [deleteTasksHandler, hval, h₂]
  exact ⟨hput₁.trans hput₂.symm, hput₁, hdel₁.trans hdel₂.symm, hdel₁⟩

/-- Witness for C4: an empty store and a store holding task 5 owned by user 2
are indistinguishable to user 1's update of task 5. -/
theorem anti_enumeration_witness :
    (putTasksHandler (some 1) "5" [("completed", JsonValue.bool true)]
        ⟨[], 1, 0⟩).resp =
      (putTasksHandler (some 1) "5" [("completed", JsonValue.bool true)]
        ⟨[⟨5, 2, "other", none, false, 0⟩], 6, 1⟩).resp ∧
    (putTasksHandler (some 1) "5" [("completed", JsonValue.bool true)]
        ⟨[], 1, 0⟩).resp = ⟨404, .errorMsg "Task not found."⟩ :=
  have h := anti_enumeration 1 5 "5" [("completed", JsonValue.bool true)]
    ⟨none, none, some true⟩ ⟨[], 1, 0⟩ ⟨[⟨5, 2, "other", none, false, 0⟩], 6, 1⟩
    rfl rfl (by simp) (by decide) (by decide)
  ⟨h.1, h.2.1⟩

theorem lookupField_eq_none (body : JsonObj) (k : String)
    (h : ∀ kv ∈ body, kv.1 ≠ k) : lookupField body k = none := by
  unfold lookupField
  rw [List.find?_eq_none.mpr]
  · rfl
  · intro kv hkv
    simpa using h kv hkv

/-- A payload providing none of the three updatable fields parses to a
failure that ends with the `_form` refinement issue (preceded by the
unrecognized-keys issue when the payload is not empty). -/
theorem parseUpdate_no_known_fields (body : JsonObj)
    (hnone : ∀ kv ∈ body, kv.1 ∉ updateKnownKeys) :
    parseUpdate body =
      .error ((if extraKeysOf body updateKnownKeys = [] then []
          else [unrecognizedKeysIssue (extraKeysOf body updateKnownKeys)]) ++
        [⟨["_form"], "At least one field is required to update a task."⟩]) := by
  have ht : updateTitleField body = .valid none := by
    rw [updateTitleField, lookupField_eq_none body "title"
      (fun kv hkv hk => hnone kv hkv (by rw [hk]; simp [updateKnownKeys]))]
  have hd : updateDescriptionField body = .valid none := by
    rw [updateDescriptionField, lookupField_eq_none body "description"
      (fun kv hkv hk => hnone kv hkv (by rw [hk]; simp [updateKnownKeys]))]
  have hc : updateCompletedField body = .valid none := by
    rw [updateCompletedField, lookupField_eq_none body "completed"
      (fun kv hkv hk => hnone kv hkv (by rw [hk]; simp [updateKnownKeys]))]
  simp only [parseUpdate, ht, hd, hc, FieldParse.issues, FieldParse.isAborted,
    FieldParse.value, List.nil_append, Bool.or_self, Bool.false_eq_true,
    if_false, providedFieldCount, Option.isSome_none]
  split <;> simp_all

/-- A successful update parse forces no unrecognized keys and at least one
provided field. -/
theorem parseUpdate_ok_inv (body : JsonObj) (data : UpdateData)
    (h : parseUpdate body = .ok data) :
    extraKeysOf body updateKnownKeys = [] ∧ 0 < providedFieldCount data := by
  simp only [parseUpdate] at h
  split at h
  · exact Except.noConfusion h
  · split at h
    · next hek =>
      split at h
      · next hcount =>
        split at h
        · injection h with hdata
          subst hdata
          exact ⟨hek, hcount⟩
        · exact Except.noConfusion h
      · next hcount =>
        split at h
        · next hall => simp at hall
        · exact Except.noConfusion h
    · next hek =>
      split at h
      · next hcount =>
        split at h
        · next hall => simp at hall
        · exact Except.noConfusion h
      · next hcount =>
        split at h
        · next hall => simp at hall
        · exact Except.noConfusion h

/-- A payload with an unrecognized key never parses successfully. -/
theorem parseUpdate_unknown_key_error (body : JsonObj) (kv : String × JsonValue)
    (hkv : kv ∈ body) (hunk : kv.1 ∉ updateKnownKeys) :
    ∃ issues, parseUpdate body = .error issues := by
  have hmem : kv.1 ∈ extraKeysOf body updateKnownKeys :=
    List.mem_filter.mpr ⟨List.mem_map_of_mem _ hkv, by simpa using hunk⟩
  have hne : extraKeysOf body updateKnownKeys ≠ [] := List.ne_nil_of_mem hmem
  cases hp : parseUpdate body with
  | error issues => exact ⟨issues, rfl⟩
  | ok data => exact absurd (parseUpdate_ok_inv body data hp).1 hne

/-- Claim C5: an update payload providing zero of the fields
title/description/completed (the empty object included) fails validation
with a message attributed to the whole payload under the reserved field
name `_form`, the handler answers 400, and no storage access occurs; and a
payload containing any unknown field is likewise rejected as a validation
error without storage access. -/
theorem update_zero_fields_and_unknown_fields :
    (∀ (uid : Option Int) (rawId : String) (taskId : Int) (body : JsonObj)
        (db : Db),
      validatePositiveIntParam "id" rawId = .ok taskId →
      (∀ kv ∈ body, kv.1 ∉ updateKnownKeys) →
      ∃ issues, parseUpdate body = .error issues ∧
        (⟨["_form"], "At least one field is required to update a task."⟩ : ZodIssue)
          ∈ issues ∧
        (⟨"_form", "At least one field is required to update a task."⟩ : FieldError)
          ∈ formatZodError issues ∧
        putTasksHandler uid rawId body db =
          ⟨⟨400, .validationError "Invalid input" (formatZodError issues)⟩,
            db, false⟩) ∧
    (∀ (uid : Option Int) (rawId : String) (taskId : Int) (body : JsonObj)
        (db : Db) (kv : String × JsonValue),
      validatePositiveIntParam "id" rawId = .ok taskId →
      kv ∈ body → kv.1 ∉ updateKnownKeys →
      ∃ issues, parseUpdate body = .error issues ∧
        putTasksHandler uid rawId body db =
          ⟨⟨400, .validationError "Invalid input" (formatZodError issues)⟩,
            db, false⟩) := by
  constructor
  · intro uid rawId taskId body db hval hnone
    refine ⟨_, parseUpdate_no_known_fields body hnone, ?_, ?_, ?_⟩
    · exact List.mem_append_right _ (List.mem_singleton.mpr rfl)
    · exact List.mem_map_of_mem _ (List.mem_append_right _ (List.mem_singleton.mpr rfl))
    · exact putTasksHandler_parse_error uid rawId taskId body db _ hval
        (parseUpdate_no_known_fields body hnone)
  · intro uid rawId taskId body db kv hval hkv hunk
    obtain ⟨issues, hissues⟩ := parseUpdate_unknown_key_error body kv hkv hunk
    exact ⟨issues, hissues,
      putTasksHandler_parse_error uid rawId taskId body db issues hval hissues⟩

/-- Witness for C5: the empty payload is rejected with the `_form` message
and the handler performs no storage access. -/
theorem update_zero_fields_and_unknown_fields_witness :
    ∃ issues, parseUpdate ([] : JsonObj) = .error issues ∧
      (⟨["_form"], "At least one field is required to update a task."⟩ : ZodIssue)
        ∈ issues ∧
      (⟨"_form", "At least one field is required to update a task."⟩ : FieldError)
        ∈ formatZodError issues ∧
      putTasksHandler (some 1) "1" ([] : JsonObj) ⟨[], 1, 0⟩ =
        ⟨⟨400, .validationError "Invalid input" (formatZodError issues)⟩,
          ⟨[], 1, 0⟩, false⟩ :=
  update_zero_fields_and_unknown_fields.1 (some 1) "1" 1 [] ⟨[], 1, 0⟩ rfl
    (fun kv hkv => absurd hkv (List.not_mem_nil kv))

/-- Claim C6: a malformed `:id` route parameter (one whose `Number` coercion
is not a positive integer) makes both update and delete answer 400 before
any storage access, with the store untouched; a well-formed positive-integer
id that matches no owned row makes them answer 404 — so the two cases are
distinguished (400 vs 404). -/
theorem taskId_param_validation :
    (∀ (uid : Option Int) (rawId : String) (body : JsonObj) (db : Db)
        (resp : Response),
      validatePositiveIntParam "id" rawId = .invalid resp →
      putTasksHandler uid rawId body db = ⟨resp, db, false⟩ ∧
      deleteTasksHandler uid rawId db = ⟨resp, db, false⟩ ∧
      resp.status = 400) ∧
    (∀ (uid : Option Int) (rawId : String) (taskId : Int) (body : JsonObj)
        (data : UpdateData) (db : Db),
      validatePositiveIntParam "id" rawId = .ok taskId →
      parseUpdate body = .ok data →
      (∀ r ∈ db.rows, rowMatchesUserAndId uid taskId r = false) →
      (putTasksHandler uid rawId body db).resp =
        ⟨404, .errorMsg "Task not found."⟩ ∧
      (deleteTasksHandler uid rawId db).resp =
        ⟨404, .errorMsg "Task not found."⟩) := by
  constructor
  · intro uid rawId body db resp hval
    refine ⟨by simp [putTasksHandler, hval], by simp [deleteTasksHandler, hval], ?_⟩
    exact validatePositiveIntParam_invalid_status "id" rawId resp hval
  · intro uid rawId taskId body data db hval hparse hnomatch
    have hfilter : db.rows.filter (rowMatchesUserAndId uid taskId) = [] :=
      List.filter_eq_nil_iff.mpr fun r hr => by simp [hnomatch r hr]
    constructor
    · simp [putTasksHandler, hval, hparse, hfilter]
    · simp [deleteTasksHandler, hval, hfilter]

/-- Witness for C6: the malformed id "abc" is rejected with 400 before
storage, while the well-formed ids "2", "1e2" (`Number` parses scientific
notation to 100), "0x10" (hex, 16) and "1.0000000000000000001" (rounds to
the double 1) all reach storage and yield 404 on an empty store. -/
theorem taskId_param_validation_witness :
    putTasksHandler (some 1) "abc" [("completed", JsonValue.bool true)]
        ⟨[], 1, 0⟩ =
      ⟨⟨400, .validationError "Invalid input"
          [⟨"id", "id must be a positive integer."⟩]⟩, ⟨[], 1, 0⟩, false⟩ ∧
    (putTasksHandler (some 1) "2" [("completed", JsonValue.bool true)]
        ⟨[], 1, 0⟩).resp = ⟨404, .errorMsg "Task not found."⟩ ∧
    (putTasksHandler (some 1) "1e2" [("completed", JsonValue.bool true)]
        ⟨[], 1, 0⟩).resp = ⟨404, .errorMsg "Task not found."⟩ ∧
    (putTasksHandler (some 1) "0x10" [("completed", JsonValue.bool true)]
        ⟨[], 1, 0⟩).resp = ⟨404, .errorMsg "Task not found."⟩ ∧
    (putTasksHandler (some 1) "1.0000000000000000001"
        [("completed", JsonValue.bool true)] ⟨[], 1, 0⟩).resp =
      ⟨404, .errorMsg "Task not found."⟩ :=
  have h₁ := taskId_param_validation.1 (some 1) "abc"
    [("completed", JsonValue.bool true)] ⟨[], 1, 0⟩
    ⟨400, .validationError "Invalid input"
      [⟨"id", "id must be a positive integer."⟩]⟩ rfl
  have h₂ := taskId_param_validation.2 (some 1) "2" 2
    [("completed", JsonValue.bool true)] ⟨none, none, some true⟩ ⟨[], 1, 0⟩
    rfl rfl (fun r hr => absurd hr (List.not_mem_nil r))
  have h₃ := taskId_param_validation.2 (some 1) "1e2" 100
    [("completed", JsonValue.bool true)] ⟨none, none, some true⟩ ⟨[], 1, 0⟩
    rfl rfl (fun r hr => absurd hr (List.not_mem_nil r))
  have h₄ := taskId_param_validation.2 (some 1) "0x10" 16
    [("completed", JsonValue.bool true)] ⟨none, none, some true⟩ ⟨[], 1, 0⟩
    rfl rfl (fun r hr => absurd hr (List.not_mem_nil r))
  have h₅ := taskId_param_validation.2 (some 1) "1.0000000000000000001" 1
    [("completed", JsonValue.bool true)] ⟨none, none, some true⟩ ⟨[], 1, 0⟩
    rfl rfl (fun r hr => absurd hr (List.not_mem_nil r))
  ⟨h₁.1, h₂.1, h₃.1, h₄.1, h₅.1⟩

/-- Claim C7: round-trip.  For a user whose store holds no tasks, creating a
task titled "X" with no description and then listing yields a 201 followed by
exactly one task with title "X", `completed = false` and an explicit null
description. -/
theorem create_list_roundtrip (uid : Int) (db : Db)
    (hempty : ∀ r ∈ db.rows, r.user_id ≠ uid) :
    (postTasksHandler (some uid) [("title", JsonValue.str "X")] db).1.status =
      201 ∧
    getTasksHandler (some uid)
        (postTasksHandler (some uid) [("title", JsonValue.str "X")] db).2 =
      ⟨200, .tasks [⟨db.nextId, "X", none, false, db.now⟩]⟩ := by
  have hparse : parseCreate [("title", JsonValue.str "X")] = .ok ⟨"X", none⟩ := rfl
  have hpost : postTasksHandler (some uid) [("title", JsonValue.str "X")] db =
      (⟨201, .task ⟨db.nextId, "X", none, false, db.now⟩⟩,
        { db with
            rows := db.rows ++
              [⟨db.nextId, uid, "X", none, false, db.now⟩]
            nextId := db.nextId + 1 }) := by
    simp [postTasksHandler, hparse, toTaskOut]
  refine ⟨by rw [hpost], ?_⟩
  rw [hpost]
  have hfilter : db.rows.filter (rowMatchesUser (some uid)) = [] :=
    List.filter_eq_nil_iff.mpr fun r hr => by
      simp [rowMatchesUser]
      exact fun he => absurd he.symm (hempty r hr)
  simp [getTasksHandler, listTasksQuery, List.filter_append, hfilter,
    rowMatchesUser, toTaskOut]

/-- Witness for C7: the round trip at a concrete store already holding
another user's task. -/
theorem create_list_roundtrip_witness :
    (postTasksHandler (some 1) [("title", JsonValue.str "X")]
        ⟨[⟨1, 2, "other", none, true, 1⟩], 2, 9⟩).1.status = 201 ∧
    getTasksHandler (some 1)
        (postTasksHandler (some 1) [("title", JsonValue.str "X")]
          ⟨[⟨1, 2, "other", none, true, 1⟩], 2, 9⟩).2 =
      ⟨200, .tasks [⟨2, "X", none, false, 9⟩]⟩ :=
  create_list_roundtrip 1 ⟨[⟨1, 2, "other", none, true, 1⟩], 2, 9⟩
    (by decide)

/-- Claim C8: `GET /api/tasks` always answers 200 with the rows matching the
ownership predicate, sorted newest-created first; a user owning no rows gets
the empty sequence, never an error. -/
theorem list_tasks_spec (uid : Option Int) (db : Db) :
    (getTasksHandler uid db).status = 200 ∧
    (getTasksHandler uid db).body =
      .tasks ((listTasksQuery uid db).map toTaskOut) ∧
    List.Sorted createdDesc (listTasksQuery uid db) ∧
    (listTasksQuery uid db).Perm (db.rows.filter (rowMatchesUser uid)) ∧
    (db.rows.filter (rowMatchesUser uid) = [] →
      getTasksHandler uid db = ⟨200, .tasks []⟩) := by
  refine ⟨rfl, rfl, List.sorted_insertionSort createdDesc _,
    List.perm_insertionSort createdDesc _, ?_⟩
  intro h
  simp [getTasksHandler, listTasksQuery, h]

/-- Witness for C8 at a user owning no rows of a concrete populated store. -/
theorem list_tasks_spec_witness :
    getTasksHandler (some 3) dbTwoUsers = ⟨200, .tasks []⟩ :=
  (list_tasks_spec (some 3) dbTwoUsers).2.2.2.2 (by decide)

/-- Claim C9: whenever the `PUT /api/tasks/:id` handler reaches the SQL
`UPDATE`, the dynamically built list of column assignments is non-empty, so
the generated `SET` clause is never empty — a consequence solely of the
schema's at-least-one-field refinement. -/
theorem update_set_clause_nonempty (uid : Option Int) (rawId : String)
    (body : JsonObj) (db : Db)
    (hacc : (putTasksHandler uid rawId body db).storageAccessed = true) :
    ∃ data, parseUpdate body = .ok data ∧ updateAssignments data ≠ [] := by
  cases hval : validatePositiveIntParam "id" rawId with
  | invalid resp => simp [putTasksHandler, hval] at hacc
  | ok taskId =>
    cases hparse : parseUpdate body with
    | error issues => simp [putTasksHandler, hval, hparse] at hacc
    | ok data =>
      refine ⟨data, rfl, ?_⟩
      have hcount := (parseUpdate_ok_inv body data hparse).2
      rcases data with ⟨t, d, c⟩
      cases t <;> cases d <;> cases c <;>
        simp_all [updateAssignments, providedFieldCount]

/-- Witness for C9: a concrete `PUT` that reaches storage has a non-empty
assignment list. -/
theorem update_set_clause_nonempty_witness :
    ∃ data, parseUpdate [("completed", JsonValue.bool true)] = .ok data ∧
      updateAssignments data ≠ [] :=
  update_set_clause_nonempty (some 1) "1" [("completed", JsonValue.bool true)]
    ⟨[], 1, 0⟩ rfl

end SecureTaskManager
